import Mathlib

/-!
Shallow embedding of `dlrover/python/master/diagnosis/diagnosis.py`
(the Diagnosis Engine: bounded per-type event store with time-based
eviction, the Diagnostician, and the DiagnosisManager background loop),
together with theorems settling the specification claims about it.

Python timestamps (floats, `datetime` arithmetic) are modelled as `Int`
seconds; `datetime.now()` is modelled by passing the current time `now`
explicitly to every operation that reads the clock.  Python `dict` is
modelled as an insertion-ordered association list, `collections.deque`
as a list plus an optional `maxlen`.
-/

namespace Diagnosis

/-- Modelled from the spec: `DiagnosisData` (defined in
`dlrover.python.diagnosis.common.diagnosis_data`, outside the excerpt) is
an immutable record `{ data_type : string, timestamp : wall-clock seconds,
payload : opaque }`; only `data_type` and `timestamp` are read by the
code under study, the payload is opaque and omitted. -/
structure DiagnosisData where
  data_type : String
  timestamp : Int
deriving DecidableEq, Repr

/-- Modelled from the spec: `Inference` (defined in
`dlrover.python.diagnosis.inferencechain`, outside the excerpt) is an
immutable proposition record `{ name, attribute, description }` with
structural equality; the three enum components are modelled as strings
since only the constants `TRAINING`, `ISORNOT`, `HANG` are used here. -/
structure Inference where
  name : String
  «attribute» : String
  description : String
deriving DecidableEq, Repr

/-- `has_expired(timestamp, time_period)`: the event time plus the
period is strictly before `now` (`expired_dt < datetime.now()`). -/
def has_expired (timestamp : Int) (time_period : Int) (now : Int) : Bool :=
  timestamp + time_period < now

/-- Model of a Python `collections.deque`: the buffer contents,
front first, plus the optional `maxlen` the deque was created with. -/
structure Deque (α : Type) where
  buf : List α
  maxlen : Option Nat
deriving DecidableEq, Repr

/-- `deque.append(a)`: appends on the right; when a `maxlen` is set,
elements are discarded from the left so that at most `maxlen` remain. -/
def Deque.append (d : Deque α) (a : α) : Deque α :=
  match d.maxlen with
  | none => ⟨d.buf ++ [a], none⟩
  | some m => ⟨(d.buf ++ [a]).drop ((d.buf ++ [a]).length - m), some m⟩

/-- The per-type capacity ceiling, the literal `100000` in
`DiagnosisDataManager.store_data`. -/
def capacity : Nat := 100000

/-- Insertion-ordered association-list lookup, modelling `dict.__getitem__`
/ `in`. -/
def lookupD (l : List (String × Deque DiagnosisData)) (k : String) :
    Option (Deque DiagnosisData) :=
  match l with
  | [] => none
  | (k', v) :: rest => if k' = k then some v else lookupD rest k

/-- `dict[k] = v` on an insertion-ordered association list: replaces the
binding in place when the key is present, appends it otherwise. -/
def setD (l : List (String × Deque DiagnosisData)) (k : String)
    (v : Deque DiagnosisData) : List (String × Deque DiagnosisData) :=
  match l with
  | [] => [(k, v)]
  | (k', v') :: rest =>
      if k' = k then (k', v) :: rest else (k', v') :: setD rest k v

/-- State of a `DiagnosisDataManager`: the per-type map
`_diagnosis_data` and the staleness window `expire_time_period`
(constructor default 600 seconds). The lock, being a mutual-exclusion
device only, has no sequential content and is not represented. -/
structure DiagnosisDataManager where
  _diagnosis_data : List (String × Deque DiagnosisData) := []
  expire_time_period : Int := 600
deriving DecidableEq, Repr

/-- The loop `n = 0; for d in each_data: if has_expired(...): n += 1
else: break` of `_clean_diagnosis_data`: length of the maximal expired
prefix. -/
def countExpiredPrefix (per now : Int) : List DiagnosisData → Nat
  | [] => 0
  | d :: rest =>
      if has_expired d.timestamp per now then countExpiredPrefix per now rest + 1
      else 0

/-- `DiagnosisDataManager._clean_diagnosis_data(data_type)`: counts the
expired prefix and, when non-empty, replaces the deque by
`deque(islice(each_data, n, len(each_data)))` — a fresh deque built
WITHOUT a `maxlen`. -/
def _clean_diagnosis_data (now : Int) (st : DiagnosisDataManager)
    (data_type : String) : DiagnosisDataManager :=
  match lookupD st._diagnosis_data data_type with
  | none => st
  | some each_data =>
      let n := countExpiredPrefix st.expire_time_period now each_data.buf
      if n > 0 then
        let cleaned := setD st._diagnosis_data data_type ⟨each_data.buf.drop n, none⟩
        { st with _diagnosis_data := cleaned }
      else st

/-- `DiagnosisDataManager.store_data(data)`: create the type's deque
with `maxlen=100000` if absent, append the event, then clean the stale
prefix of that type's sequence. -/
def store_data (now : Int) (st : DiagnosisDataManager)
    (data : DiagnosisData) : DiagnosisDataManager :=
  let data_type := data.data_type
  let st1 :=
    match lookupD st._diagnosis_data data_type with
    | none =>
        let created := setD st._diagnosis_data data_type ⟨[], some capacity⟩
        { st with _diagnosis_data := created }
    | some _ => st
  let dq := (lookupD st1._diagnosis_data data_type).getD ⟨[], some capacity⟩
  let appended := setD st1._diagnosis_data data_type (dq.append data)
  let st2 := { st1 with _diagnosis_data := appended }
  _clean_diagnosis_data now st2 data_type

/-- `DiagnosisDataManager.get_data(data_type)`: returns `[]` for an
unknown type, otherwise `list(self.data[data_type])` — the deque's
contents.  The method performs no mutation, so the (unchanged) state is
returned alongside the result to make the frame condition statable. -/
def get_data (st : DiagnosisDataManager) (data_type : String) :
    List DiagnosisData × DiagnosisDataManager :=
  match lookupD st._diagnosis_data data_type with
  | none => ([], st)
  | some dq => (dq.buf, st)

/-- The deque the store works on for a given type: the existing entry,
or the fresh `deque(maxlen=100000)` that `store_data` creates when the
type is absent. -/
def entryOf (st : DiagnosisDataManager) (t : String) : Deque DiagnosisData :=
  (lookupD st._diagnosis_data t).getD ⟨[], some capacity⟩

/-- Replace the `_diagnosis_data` map of a manager state (`self._diagnosis_data = ...`). -/
def withMap (st : DiagnosisDataManager)
    (m : List (String × Deque DiagnosisData)) : DiagnosisDataManager :=
  { st with _diagnosis_data := m }

/-- C1 failing scenario: one event at time 0, then at time 1000 a store
that evicts the now-stale first event (so `_clean_diagnosis_data`
rebuilds the deque WITHOUT its `maxlen`), then `n` further stores of
non-stale events at time 1000. -/
def evictionScenarioStep : Nat → DiagnosisDataManager
  | 0 => store_data 1000 (store_data 0 {} ⟨"t", 0⟩) ⟨"t", 1000⟩
  | n + 1 => store_data 1000 (evictionScenarioStep n) ⟨"t", 1000⟩

end Diagnosis

namespace Diagnosis

/-- The single default problem seed registered by `start_observing`:
`Inference(InferenceName.TRAINING, InferenceAttribute.ISORNOT,
InferenceDescription.HANG)`. -/
def hangInference : Inference := ⟨"TRAINING", "ISORNOT", "HANG"⟩

/-- State of a `Diagnostician`: the two registered seed sets.  The
`_data_manager` back-reference carries no sequential state of its own
here and is omitted. -/
structure Diagnostician where
  _pre_checks : List Inference := []
  _training_problems : List Inference := []
deriving DecidableEq, Repr

/-- `Diagnostician.register_pre_check(pre_checks)`: replaces the
pre-check seed set. -/
def register_pre_check (d : Diagnostician) (pre_checks : List Inference) :
    Diagnostician :=
  { d with _pre_checks := pre_checks }

/-- `Diagnostician.register_problems(problems)`: replaces the problem
seed set. -/
def register_problems (d : Diagnostician) (problems : List Inference) :
    Diagnostician :=
  { d with _training_problems := problems }

/-- `Diagnostician.diagnose_failure(inference)`: the body is the single
statement `pass`, so the call performs nothing and returns Python
`None`; modelled as `Option (List Inference)` with `none` standing for
`None` and `some l` for a returned list. -/
def diagnose_failure (_d : Diagnostician) (_inference : Inference) :
    Option (List Inference) :=
  none

/-- Observable side effects of the manager's methods, used to reason
about what a call does and does not do: log lines, a thread spawn, and
an inference-chain evaluation (`InferenceChain(seeds, ops).infer()`)
carrying the seeds it was given. -/
inductive Effect
  | logInfo
  | logError
  | spawnLoop
  | chainInfer (seeds : List Inference)
deriving DecidableEq, Repr

/-- Whether an effect is an inference-chain evaluation. -/
def isChainInfer : Effect → Bool
  | Effect.chainInfer _ => true
  | _ => false

/-- `Diagnostician.check_training()`: builds
`InferenceChain(self._pre_checks, self.get_pre_check_operators())` and
calls `infer()`.  Modelled from the spec: `InferenceChain.infer` itself
is outside the excerpt; since `get_pre_check_operators()` returns `[]`,
no operator is applicable and the evaluation returns an empty result
(the spec's "calls return empty results").  The emitted `chainInfer`
effect records that a chain evaluation over the pre-check seeds ran. -/
def check_training (d : Diagnostician) : List Inference × List Effect :=
  ([], [Effect.chainInfer d._pre_checks])

/-- State of a `DiagnosisManager`: the observing flag and the owned
diagnostician.  `runningLoops` models the number of
`_diagnose_failures` daemon threads spawned by `start_observing` that
have not yet observed a `False` flag and exited — Python thread objects
themselves are not otherwise representable sequentially. -/
structure DiagnosisManager where
  _is_observing_started : Bool := false
  _diagnostician : Diagnostician := {}
  runningLoops : Nat := 0
deriving DecidableEq, Repr

/-- `DiagnosisManager.pre_check()`: logs, builds the placeholder
`pre_checks = []` list and registers it via `register_pre_check`; the
method body then ends (`pass`).  It never constructs an inference chain
and never calls `check_training`. -/
def pre_check (m : DiagnosisManager) : DiagnosisManager × List Effect :=
  ({ m with _diagnostician := register_pre_check m._diagnostician [] },
   [Effect.logInfo])

/-- `DiagnosisManager.start_observing()`.  The flag is assigned `True`
and the problem seed registered BEFORE the `try` block; `spawnOk`
models whether `threading.Thread(...).start()` succeeds.  On success a
new loop thread starts running (`runningLoops + 1`) and the
"is started" info line is logged; on failure the exception is caught
and logged and nothing else happens (no retry, no rollback of the
flag). -/
def start_observing (spawnOk : Bool) (m : DiagnosisManager) :
    DiagnosisManager × List Effect :=
  let d1 := register_problems m._diagnostician [hangInference]
  let m1 := { m with _is_observing_started := true, _diagnostician := d1 }
  if spawnOk then
    ({ m1 with runningLoops := m1.runningLoops + 1 },
     [Effect.logInfo, Effect.spawnLoop, Effect.logInfo])
  else
    (m1, [Effect.logInfo, Effect.logError])

/-- `DiagnosisManager.stop_observing()`: logs and flips the flag to
`False`; nothing else. -/
def stop_observing (m : DiagnosisManager) : DiagnosisManager × List Effect :=
  ({ m with _is_observing_started := false }, [Effect.logInfo])

/-- Python exceptions relevant to the loop body: the `TypeError` from
`for root_cause in None`, and any other exception escaping
`observe_training`. -/
inductive PyExc
  | typeError
  | other
deriving DecidableEq, Repr

/-- How one run of `_diagnose_failures` ends. -/
inductive LoopExit
  | stopped
  | raised (e : PyExc)
deriving DecidableEq, Repr

/-- `for root_cause in root_causes: ...` over the value returned by
`diagnose_failure`: iterating Python `None` raises `TypeError`;
iterating a list succeeds (the body only logs). -/
def iterateRootCauses : Option (List Inference) → Except PyExc Unit
  | none => Except.error PyExc.typeError
  | some _ => Except.ok ()

/-- `for problem in observed_problems: ... root_causes =
self._diagnostician.diagnose_failure(problem); for root_cause in
root_causes: ...` — the inner iteration of each problem's root causes,
in order, stopping at the first exception. -/
def processProblems (d : Diagnostician) : List Inference → Except PyExc Unit
  | [] => Except.ok ()
  | p :: rest =>
      match iterateRootCauses (diagnose_failure d p) with
      | Except.error e => Except.error e
      | Except.ok _ => processProblems d rest

/-- `DiagnosisManager._diagnose_failures()`: the background loop.
`flag i` is the value of `self._is_observing_started` read at iteration
`i`'s check (it is flipped concurrently by `stop_observing`); `obs i`
is the outcome of `self._diagnostician.observe_training()` at iteration
`i` — modelled from the spec as an oracle because `observe_training`
delegates to the external `InferenceChain` over
`CheckTrainingHangOperator`, whose code is outside the excerpt; it
yields either a list of observed problems or a raised exception.
`fuel` bounds the number of iterations examined: `none` means the loop
is still running after `fuel` iterations.  The loop body has no
`try`/`except`: an exception from `observe_training` or from iterating
`diagnose_failure`'s result propagates and ends the loop.  The
`time.sleep` call is elided. -/
def _diagnose_failures (d : Diagnostician) (flag : Nat → Bool)
    (obs : Nat → Except PyExc (List Inference)) :
    Nat → Nat → Option LoopExit
  | 0, _ => none
  | fuel + 1, i =>
      if flag i = false then some LoopExit.stopped
      else
        match obs i with
        | Except.error e => some (LoopExit.raised e)
        | Except.ok problems =>
            match processProblems d problems with
            | Except.error e => some (LoopExit.raised e)
            | Except.ok _ => _diagnose_failures d flag obs fuel (i + 1)

end Diagnosis

namespace Diagnosis

/-- Reference-level model of the store for the aliasing claim: Python
list/deque objects live on a heap indexed by `Nat` references, and
`byType` is `_diagnosis_data` mapping each `data_type` to the reference
of its live deque object.  (The pure model above identifies objects
with their contents; this refinement makes object identity, and hence
mutation-after-read, expressible.) -/
structure RefStore where
  heap : List (List DiagnosisData)
  byType : List (String × Nat)
deriving DecidableEq, Repr

/-- Association-list lookup of the reference held for a type. -/
def lookupRef (l : List (String × Nat)) (k : String) : Option Nat :=
  match l with
  | [] => none
  | (k', v) :: rest => if k' = k then some v else lookupRef rest k

/-- `get_data` at the reference level: for a known type,
`list(self.data[data_type])` allocates a NEW list object (a fresh
reference at the end of the heap) whose contents are copied from the
live deque, and returns that fresh reference; for an unknown type,
`return []` likewise allocates a fresh empty list.  The store's
`byType` map and every existing heap object are untouched. -/
def get_data_ref (s : RefStore) (t : String) : Nat × RefStore :=
  match lookupRef s.byType t with
  | none => (s.heap.length, { s with heap := s.heap ++ [[]] })
  | some r => (s.heap.length, { s with heap := s.heap ++ [(s.heap[r]?).getD []] })

/-- A caller mutating, in place, the list object behind reference `r`
(e.g. `result.append(...)`, `result.clear()` — any contents-to-contents
transformation `f`). -/
def mutateRef (s : RefStore) (r : Nat)
    (f : List DiagnosisData → List DiagnosisData) : RefStore :=
  { s with heap := s.heap.set r (f ((s.heap[r]?).getD [])) }

end Diagnosis

namespace Diagnosis

-- sanity checks on small inputs
example : has_expired 0 5 10 = true := by decide
example : has_expired 0 600 600 = false := by decide
example :
    (get_data (store_data 0 {} ⟨"t", 0⟩) "t").1 = [⟨"t", 0⟩] := by rfl
example : (get_data {} "nope").1 = [] := by rfl
example :
    (store_data 1000 (store_data 0 {} ⟨"t", 0⟩) ⟨"t", 1000⟩)._diagnosis_data
      = [("t", ⟨[⟨"t", 1000⟩], none⟩)] := by rfl

end Diagnosis

namespace Diagnosis

lemma lookupD_setD_self (l : List (String × Deque DiagnosisData)) (k : String)
    (v : Deque DiagnosisData) : lookupD (setD l k v) k = some v := by
  induction l with
  | nil => simp [setD, lookupD]
  | cons hd tl ih =>
      obtain ⟨k', v'⟩ := hd
      by_cases h : k' = k
      · simp [setD, lookupD, h]
      · simp [setD, lookupD, h, ih]

lemma setD_setD (l : List (String × Deque DiagnosisData)) (k : String)
    (v w : Deque DiagnosisData) : setD (setD l k v) k w = setD l k w := by
  induction l with
  | nil => simp [setD]
  | cons hd tl ih =>
      obtain ⟨k', v'⟩ := hd
      by_cases h : k' = k
      · simp [setD, h]
      · simp [setD, h, ih]

lemma drop_countExpiredPrefix (per now : Int) (l : List DiagnosisData) :
    l.drop (countExpiredPrefix per now l)
      = l.dropWhile (fun d => has_expired d.timestamp per now) := by
  induction l with
  | nil => rfl
  | cons d rest ih =>
      simp only [countExpiredPrefix, List.dropWhile]
      cases h : has_expired d.timestamp per now with
      | true => simpa [h] using ih
      | false => simp [h]

lemma clean_expire (now : Int) (st : DiagnosisDataManager) (t : String) :
    (_clean_diagnosis_data now st t).expire_time_period = st.expire_time_period := by
  simp only [_clean_diagnosis_data]
  cases h : lookupD st._diagnosis_data t with
  | none => rfl
  | some dq => dsimp only; split <;> rfl

/-- `store_data` is: overwrite the type's entry with the appended deque
(creating the fresh bounded deque first when absent), then clean. -/
lemma store_data_eq (now : Int) (st : DiagnosisDataManager) (data : DiagnosisData) :
    store_data now st data
      = _clean_diagnosis_data now
          (withMap st
            (setD st._diagnosis_data data.data_type
              ((entryOf st data.data_type).append data)))
          data.data_type := by
  unfold store_data entryOf withMap
  cases h : lookupD st._diagnosis_data data.data_type with
  | none => simp [h, lookupD_setD_self, setD_setD]
  | some dq => simp [h]

/-- Cleaning a present entry leaves exactly the `dropWhile` of the
staleness predicate as the retrievable contents. -/
lemma get_data_clean (now : Int) (st : DiagnosisDataManager) (t : String)
    (dq : Deque DiagnosisData) (h : lookupD st._diagnosis_data t = some dq) :
    (get_data (_clean_diagnosis_data now st t) t).1
      = dq.buf.dropWhile (fun d => has_expired d.timestamp st.expire_time_period now) := by
  simp only [_clean_diagnosis_data, h]
  by_cases hn : countExpiredPrefix st.expire_time_period now dq.buf > 0
  · rw [if_pos hn]
    simp only [get_data, lookupD_setD_self]
    exact drop_countExpiredPrefix st.expire_time_period now dq.buf
  · rw [if_neg hn]
    have h0 : countExpiredPrefix st.expire_time_period now dq.buf = 0 := by omega
    have hd := drop_countExpiredPrefix st.expire_time_period now dq.buf
    rw [h0, List.drop_zero] at hd
    simp only [get_data, h]
    exact hd

/-- C7: `store_data(event)` appends the event to the sequence keyed by
`event.data_type` (creating that sequence if absent — `entryOf` is the
existing entry or the fresh bounded deque), and then removes exactly
the maximal stale prefix of that sequence (`dropWhile` of the staleness
predicate: every stale element of the prefix is removed and everything
from the first non-stale element onward is retained); an event is stale
iff `now > timestamp + staleness_window`. -/
theorem c7_store_appends_then_evicts_maximal_stale_front
    (now : Int) (st : DiagnosisDataManager) (data : DiagnosisData) :
    (get_data (store_data now st data) data.data_type).1
      = ((entryOf st data.data_type).append data).buf.dropWhile
          (fun d => has_expired d.timestamp st.expire_time_period now)
    ∧ (∀ ts per t : Int, has_expired ts per t = true ↔ t > ts + per) := by
  constructor
  · rw [store_data_eq]
    exact get_data_clean now _ data.data_type _ (lookupD_setD_self _ _ _)
  · intro ts per t
    simp [has_expired]

/-- Closed witness for C7 at a concrete input: storing an event of a
fresh type at time 0 appends it and evicts nothing. -/
theorem c7_store_appends_then_evicts_maximal_stale_front_witness :
    (get_data (store_data 0 ({} : DiagnosisDataManager) ⟨"t", 0⟩) "t").1
      = ((entryOf ({} : DiagnosisDataManager) "t").append ⟨"t", 0⟩).buf.dropWhile
          (fun d => has_expired d.timestamp (600 : Int) 0)
    ∧ has_expired 0 5 10 = true :=
  ⟨(c7_store_appends_then_evicts_maximal_stale_front 0 {} ⟨"t", 0⟩).1,
   ((c7_store_appends_then_evicts_maximal_stale_front 0 {} ⟨"t", 0⟩).2 0 5 10).mpr
     (by omega)⟩

/-- C8: querying a type that was never stored returns the empty list,
raises nothing, and leaves the store state completely unchanged (no
sequence is created for the unknown type). -/
theorem c8_get_data_unknown_type (st : DiagnosisDataManager) (t : String)
    (h : lookupD st._diagnosis_data t = none) :
    get_data st t = ([], st) := by
  simp [get_data, h]

/-- Witness for C8 on the initial (empty) store and the spec's
`"nonexistent_type"` key. -/
theorem c8_get_data_unknown_type_witness :
    lookupD (({} : DiagnosisDataManager))._diagnosis_data "nonexistent_type" = none
    ∧ get_data ({} : DiagnosisDataManager) "nonexistent_type" = ([], {}) :=
  ⟨rfl, c8_get_data_unknown_type {} "nonexistent_type" rfl⟩

/-- C2 counterexample: store one event with timestamp 0 at time 0 under
a 5-second staleness window; the event is stale at time 10
(`has_expired 0 5 10 = true`), yet `get_data` — which never consults the
clock — still returns it, not the empty sequence the claim requires. -/
theorem c2_counterexample :
    (get_data (store_data 0 { expire_time_period := 5 } ⟨"t", 0⟩) "t").1 ≠ []
    ∧ has_expired 0 5 10 = true := by
  constructor
  · show ([(⟨"t", 0⟩ : DiagnosisData)] : List DiagnosisData) ≠ []
    simp
  · rfl

/-- C2 amended: `get_data` returns the retained sequence without any
query-time staleness filtering — stale events remain visible until a
subsequent `store_data` of the same type evicts them.  In the spec's
scenario the query after time 10 still returns the stale event; a later
`store_data` at time 10 does evict it. -/
theorem c2_get_data_does_not_filter_stale :
    (get_data (store_data 0 { expire_time_period := 5 } ⟨"t", 0⟩) "t").1 = [⟨"t", 0⟩]
    ∧ has_expired 0 5 10 = true
    ∧ (get_data (store_data 10 (store_data 0 { expire_time_period := 5 } ⟨"t", 0⟩)
          ⟨"t", 10⟩) "t").1 = [⟨"t", 10⟩] :=
  ⟨rfl, rfl, rfl⟩

lemma evictionScenarioStep_spec (n : Nat) :
    (evictionScenarioStep n)._diagnosis_data
      = [("t", ⟨List.replicate (n + 1) ⟨"t", 1000⟩, none⟩)]
    ∧ (evictionScenarioStep n).expire_time_period = 600 := by
  induction n with
  | zero => exact ⟨rfl, rfl⟩
  | succ n ih =>
      obtain ⟨h1, h2⟩ := ih
      have hst : evictionScenarioStep n
          = ⟨[("t", ⟨List.replicate (n + 1) ⟨"t", 1000⟩, none⟩)], 600⟩ := by
        cases hE : evictionScenarioStep n
        rw [hE] at h1 h2
        simp_all
      show (store_data 1000 (evictionScenarioStep n) ⟨"t", 1000⟩)._diagnosis_data = _
        ∧ (store_data 1000 (evictionScenarioStep n) ⟨"t", 1000⟩).expire_time_period = _
      rw [hst]
      constructor
      · simp [store_data, _clean_diagnosis_data, lookupD, setD, Deque.append,
          List.replicate_succ, countExpiredPrefix, has_expired]
        rw [← List.replicate_succ', List.replicate_succ]
      · rw [store_data_eq, clean_expire]
        rfl

lemma get_data_of_single (st : DiagnosisDataManager) (t : String)
    (dq : Deque DiagnosisData) (h : st._diagnosis_data = [(t, dq)]) :
    get_data st t = (dq.buf, st) := by
  unfold get_data
  rw [h]
  simp [lookupD]

/-- C1: after a stale-prefix eviction the capacity ceiling is lost —
`_clean_diagnosis_data` rebuilds the per-type deque via
`deque(islice(...))` without `maxlen=100000`, so storing `capacity`
further (non-stale) events leaves `capacity + 1` entries in the store,
strictly exceeding the 100,000 ceiling the claim asserts. -/
theorem c1_capacity_ceiling_lost_after_eviction :
    (get_data (evictionScenarioStep capacity) "t").1.length = capacity + 1
    ∧ capacity < capacity + 1 := by
  constructor
  · rw [get_data_of_single _ _ _ (evictionScenarioStep_spec capacity).1]
    exact List.length_replicate _ _
  · exact Nat.lt_succ_self capacity

end Diagnosis

namespace Diagnosis

/-- C3: `diagnose_failure` returns Python `None` for every problem —
never a sequence — and iterating its result (as the background loop
does) raises `TypeError`, so the loop can NOT always iterate over it. -/
theorem c3_diagnose_failure_returns_none_not_a_sequence
    (d : Diagnostician) (problem : Inference) :
    diagnose_failure d problem = none
    ∧ iterateRootCauses (diagnose_failure d problem) = Except.error PyExc.typeError
    ∧ processProblems d [problem] = Except.error PyExc.typeError :=
  ⟨rfl, rfl, rfl⟩

/-- C4 counterexample: with the observing flag permanently `True`, one
iteration in which `observe_training` reports a problem ends the loop
with an uncaught `TypeError` (from iterating `diagnose_failure`'s
`None`), and one in which `observe_training` raises ends it with that
exception — the loop exits without the stop flag ever being observed,
refuting "the only condition under which the loop exits is the
cooperative stop flag". -/
theorem c4_counterexample :
    _diagnose_failures {} (fun _ => true) (fun _ => Except.ok [hangInference]) 1 0
      = some (LoopExit.raised PyExc.typeError)
    ∧ _diagnose_failures {} (fun _ => true) (fun _ => Except.error PyExc.other) 1 0
      = some (LoopExit.raised PyExc.other) :=
  ⟨rfl, rfl⟩

/-- C4 amended: the loop body contains no exception handler.  If the
flag reads `True` and `observe_training` raises, the loop terminates
with that exception; if `observe_training` returns a non-empty problem
list, iterating `diagnose_failure`'s `None` result terminates the loop
with `TypeError`; the flag reading `False` exits the loop cooperatively.
So the loop exits either on the stop flag or on the first uncaught
exception — it does not survive an exceptional iteration. -/
theorem c4_loop_exceptions_terminate_loop :
    (∀ (d : Diagnostician) (flag : Nat → Bool)
        (obs : Nat → Except PyExc (List Inference)) (i fuel : Nat) (e : PyExc),
        flag i = true → obs i = Except.error e →
        _diagnose_failures d flag obs (fuel + 1) i = some (LoopExit.raised e))
    ∧ (∀ (d : Diagnostician) (flag : Nat → Bool)
        (obs : Nat → Except PyExc (List Inference)) (i fuel : Nat)
        (p : Inference) (rest : List Inference),
        flag i = true → obs i = Except.ok (p :: rest) →
        _diagnose_failures d flag obs (fuel + 1) i
          = some (LoopExit.raised PyExc.typeError))
    ∧ (∀ (d : Diagnostician) (flag : Nat → Bool)
        (obs : Nat → Except PyExc (List Inference)) (i fuel : Nat),
        flag i = false →
        _diagnose_failures d flag obs (fuel + 1) i = some LoopExit.stopped) := by
  refine ⟨?_, ?_, ?_⟩
  · intro d flag obs i fuel e hflag hobs
    simp [_diagnose_failures, hflag, hobs]
  · intro d flag obs i fuel p rest hflag hobs
    simp [_diagnose_failures, hflag, hobs, processProblems, iterateRootCauses,
      diagnose_failure]
  · intro d flag obs i fuel hflag
    simp [_diagnose_failures, hflag]

/-- Witness for the amended C4 at concrete inputs: each of the three
exit modes realized on a concrete loop run. -/
theorem c4_loop_exceptions_terminate_loop_witness :
    _diagnose_failures {} (fun _ => true) (fun _ => Except.error PyExc.other) 3 0
      = some (LoopExit.raised PyExc.other)
    ∧ _diagnose_failures {} (fun i => i ≠ 0) (fun _ => Except.ok [hangInference]) 3 1
      = some (LoopExit.raised PyExc.typeError)
    ∧ _diagnose_failures {} (fun _ => false) (fun _ => Except.ok []) 3 0
      = some LoopExit.stopped :=
  ⟨c4_loop_exceptions_terminate_loop.1 {} (fun _ => true)
      (fun _ => Except.error PyExc.other) 0 2 PyExc.other rfl rfl,
   c4_loop_exceptions_terminate_loop.2.1 {} (fun i => i ≠ 0)
      (fun _ => Except.ok [hangInference]) 1 2 hangInference [] (by decide) rfl,
   c4_loop_exceptions_terminate_loop.2.2 {} (fun _ => false)
      (fun _ => Except.ok []) 0 2 rfl⟩

/-- C5 counterexample: two consecutive successful `start_observing`
calls leave TWO spawned loop threads running concurrently (the flag is
`True`, so neither has exited, and nothing replaced or rejected the
second spawn), refuting "does not result in two concurrently running
background observation loops". -/
theorem c5_counterexample :
    (start_observing true (start_observing true ({} : DiagnosisManager)).1).1.runningLoops
      = 2
    ∧ (start_observing true
        (start_observing true ({} : DiagnosisManager)).1).1._is_observing_started
      = true :=
  ⟨rfl, rfl⟩

/-- C5 amended: `stop_observing` on an idle manager is a no-op on the
state (no error, no loop spawned, still idle, only a log line); but
`start_observing` has no guard at all — each successful call spawns one
more loop thread, so two calls leave two concurrently running loops,
neither replaced nor rejected. -/
theorem c5_stop_idle_noop_but_double_start_spawns_two :
    (stop_observing ({} : DiagnosisManager)).1 = ({} : DiagnosisManager)
    ∧ (stop_observing ({} : DiagnosisManager)).2 = [Effect.logInfo]
    ∧ (∀ m : DiagnosisManager,
        (start_observing true (start_observing true m).1).1.runningLoops
          = m.runningLoops + 2)
    ∧ (start_observing true
        (start_observing true ({} : DiagnosisManager)).1).1._is_observing_started
      = true := by
  refine ⟨rfl, rfl, ?_, rfl⟩
  intro m
  rfl

/-- C6 counterexample: when the spawn fails, `_is_observing_started`
remains `True` — it was assigned before the `try` block and the
`except` handler does not reset it — refuting "its observing flag does
not remain set". -/
theorem c6_counterexample :
    (start_observing false ({} : DiagnosisManager)).1._is_observing_started = true :=
  rfl

/-- C6 amended: on spawn failure the manager logs the error after the
initial info line and does nothing else — no loop thread runs and no
retry happens (the effect trace is exactly `[logInfo, logError]`) — but
the `_is_observing_started` flag remains `True`, so the manager is only
"effectively idle" in the sense that no loop is running. -/
theorem c6_spawn_failure_logs_no_retry_but_flag_stays_set
    (m : DiagnosisManager) :
    (start_observing false m).1.runningLoops = m.runningLoops
    ∧ (start_observing false m).2 = [Effect.logInfo, Effect.logError]
    ∧ (start_observing false m).1._is_observing_started = true :=
  ⟨rfl, rfl, rfl⟩

/-- C10 counterexample: `pre_check()` on the initial manager performs
no inference-chain evaluation at all — its effect trace contains no
`chainInfer` — refuting "evaluates the pre-check inference chain over
those seeds". -/
theorem c10_counterexample :
    (pre_check ({} : DiagnosisManager)).2.any isChainInfer = false :=
  rfl

/-- C10 amended: `pre_check()` replaces the diagnostician's pre-check
seed set with the (placeholder) empty list, independent of the
Idle/Observing state (the flag and running loops are untouched), but it
does NOT evaluate the pre-check inference chain: no `chainInfer` effect
occurs.  `check_training` — which `pre_check` never calls — is the
operation that would run that chain over the registered seeds. -/
theorem c10_pre_check_registers_but_never_evaluates_chain
    (m : DiagnosisManager) :
    (pre_check m).1._diagnostician._pre_checks = []
    ∧ (pre_check m).2.any isChainInfer = false
    ∧ (pre_check m).1._is_observing_started = m._is_observing_started
    ∧ (pre_check m).1.runningLoops = m.runningLoops
    ∧ (check_training (pre_check m).1._diagnostician).2 = [Effect.chainInfer []] :=
  ⟨rfl, rfl, rfl, rfl, rfl⟩

end Diagnosis

namespace Diagnosis

/-- C9: for a stored type, `get_data` returns a snapshot that does not
alias the live internal buffer: the returned reference is distinct from
the internal one, the call leaves the type map and the internal buffer
unchanged, the snapshot's contents equal the live contents at call
time, and any subsequent caller mutation of the returned object leaves
the store's internal buffer (and type map) unchanged. -/
theorem c9_get_data_returns_nonaliasing_snapshot (s : RefStore) (t : String)
    (ri : Nat) (hri : lookupRef s.byType t = some ri)
    (hlt : ri < s.heap.length) :
    (get_data_ref s t).1 ≠ ri
    ∧ (get_data_ref s t).2.byType = s.byType
    ∧ (get_data_ref s t).2.heap[ri]? = s.heap[ri]?
    ∧ (get_data_ref s t).2.heap[(get_data_ref s t).1]? = some ((s.heap[ri]?).getD [])
    ∧ ∀ f, (mutateRef (get_data_ref s t).2 (get_data_ref s t).1 f).byType = s.byType
        ∧ (mutateRef (get_data_ref s t).2 (get_data_ref s t).1 f).heap[ri]?
            = s.heap[ri]? := by
  have hg : get_data_ref s t
      = (s.heap.length, { s with heap := s.heap ++ [(s.heap[ri]?).getD []] }) := by
    unfold get_data_ref
    rw [hri]
  rw [hg]
  refine ⟨(Nat.ne_of_lt hlt).symm, rfl, ?_, ?_, ?_⟩
  · exact List.getElem?_append_left hlt
  · exact List.getElem?_concat_length _ _
  · intro f
    refine ⟨rfl, ?_⟩
    show ((s.heap ++ [(s.heap[ri]?).getD []]).set s.heap.length _)[ri]? = s.heap[ri]?
    rw [List.getElem?_set_ne (Nat.ne_of_gt hlt)]
    exact List.getElem?_append_left hlt

/-- Witness for C9 on a one-type store whose heap holds one internal
buffer containing one event. -/
theorem c9_get_data_returns_nonaliasing_snapshot_witness :
    lookupRef (RefStore.mk [[⟨"t", 0⟩]] [("t", 0)]).byType "t" = some 0
    ∧ (0 : Nat) < (RefStore.mk [[⟨"t", 0⟩]] [("t", 0)]).heap.length
    ∧ ((get_data_ref (RefStore.mk [[⟨"t", 0⟩]] [("t", 0)]) "t").1 ≠ 0
        ∧ (get_data_ref (RefStore.mk [[⟨"t", 0⟩]] [("t", 0)]) "t").2.byType
            = (RefStore.mk [[⟨"t", 0⟩]] [("t", 0)]).byType
        ∧ (get_data_ref (RefStore.mk [[⟨"t", 0⟩]] [("t", 0)]) "t").2.heap[(0 : Nat)]?
            = (RefStore.mk [[⟨"t", 0⟩]] [("t", 0)]).heap[(0 : Nat)]?
        ∧ (get_data_ref (RefStore.mk [[⟨"t", 0⟩]] [("t", 0)])
              "t").2.heap[(get_data_ref (RefStore.mk [[⟨"t", 0⟩]] [("t", 0)]) "t").1]?
            = some (((RefStore.mk [[⟨"t", 0⟩]] [("t", 0)]).heap[(0 : Nat)]?).getD [])
        ∧ ∀ f,
            (mutateRef (get_data_ref (RefStore.mk [[⟨"t", 0⟩]] [("t", 0)]) "t").2
                (get_data_ref (RefStore.mk [[⟨"t", 0⟩]] [("t", 0)]) "t").1 f).byType
              = (RefStore.mk [[⟨"t", 0⟩]] [("t", 0)]).byType
            ∧ (mutateRef (get_data_ref (RefStore.mk [[⟨"t", 0⟩]] [("t", 0)]) "t").2
                  (get_data_ref (RefStore.mk [[⟨"t", 0⟩]] [("t", 0)]) "t").1
                  f).heap[(0 : Nat)]?
              = (RefStore.mk [[⟨"t", 0⟩]] [("t", 0)]).heap[(0 : Nat)]?) :=
  ⟨rfl, by decide,
   c9_get_data_returns_nonaliasing_snapshot (RefStore.mk [[⟨"t", 0⟩]] [("t", 0)])
     "t" 0 rfl (by decide)⟩

end Diagnosis
